import Mathlib

/-!
Verification of the threat-intelligence aggregation core:
shallow embedding of the indicator classifier, the VirusTotal client
rate limiter and retry loop, the per-tenant quota facade (`vt_call`),
and the score-fusion engine, translated from
`backend/app/utils/indicator.py`, `backend/app/clients/virustotal_client.py`,
`backend/app/services/virustotal_service.py` and
`backend/app/services/threat_analysis_clean.py`.
Machine reals are modelled as exact rationals.
-/

/-- Digits of an ASCII decimal string folded into a natural number. -/
def digitsToNat (cs : List Char) : Nat :=
  cs.foldl (fun a c => a * 10 + (c.toNat - '0'.toNat)) 0

/-- Simplified model of Python `float(s)`: optional sign, decimal digits with
at most one dot.  Returns `none` when the string does not parse. -/
def parseFloat? (s : String) : Option ℚ :=
  let cs := s.toList
  let sign : ℚ := if cs.head? = some '-' then -1 else 1
  let cs := if cs.head? = some '-' ∨ cs.head? = some '+' then cs.tail else cs
  let intPart := cs.takeWhile Char.isDigit
  match cs.drop intPart.length with
  | [] => if intPart = [] then none else some (sign * digitsToNat intPart)
  | '.' :: fracPart =>
    if fracPart.all Char.isDigit ∧ (intPart ≠ [] ∨ fracPart ≠ []) then
      some (sign * ((digitsToNat intPart : ℚ) +
        (digitsToNat fracPart : ℚ) / (10 ^ fracPart.length)))
    else none
  | _ => none

/-- Model of the pydantic validator `round(v, 3)` on scores (exact halves
round up in this rational model). -/
def round3 (q : ℚ) : ℚ := (⌊q * 1000 + 1/2⌋ : ℚ) / 1000

/-- Dynamic Python/JSON values as they flow through the service layer. -/
inductive PyVal where
  | pnone
  | int (n : Int)
  | num (q : ℚ)
  | str (s : String)
  | list (xs : List PyVal)
  | dict (kvs : List (String × PyVal))

/-- The Python exceptions that the analysis code can raise or catch. -/
inductive PyExc where
  | keyError
  | typeError
  | attributeError
  | zeroDivisionError
  | validationError
deriving DecidableEq

/-- `v.get(k, default)`: dictionary lookup with default; calling `.get` on a
non-dict raises `AttributeError` (not caught by `except (KeyError, TypeError)`). -/
def pyGet (v : PyVal) (k : String) (default : PyVal) : Except PyExc PyVal :=
  match v with
  | .dict kvs => .ok ((kvs.lookup k).getD default)
  | _ => .error .attributeError

/-- Python `+` on the value shapes that can occur: numbers add, strings and
lists concatenate, every other combination raises `TypeError`. -/
def pyAdd : PyVal → PyVal → Except PyExc PyVal
  | .int a, .int b => .ok (.int (a + b))
  | .int a, .num b => .ok (.num (a + b))
  | .num a, .int b => .ok (.num (a + b))
  | .num a, .num b => .ok (.num (a + b))
  | .str a, .str b => .ok (.str (a ++ b))
  | .list a, .list b => .ok (.list (a ++ b))
  | _, _ => .error .typeError

/-- Python `x * 0.5`: defined for numbers, `TypeError` otherwise. -/
def pyMulHalf : PyVal → Except PyExc ℚ
  | .int n => .ok ((n : ℚ) / 2)
  | .num q => .ok (q / 2)
  | _ => .error .typeError

/-- Python `x == 0`: true only for numeric zero. -/
def pyEqZero : PyVal → Bool
  | .int n => n == 0
  | .num q => q == 0
  | _ => false

/-- Python `a / b`: numbers divide (`ZeroDivisionError` on zero denominator),
any non-numeric operand raises `TypeError`. -/
def pyDivVal : PyVal → PyVal → Except PyExc ℚ
  | .int a, .int b => if b = 0 then .error .zeroDivisionError else .ok ((a : ℚ) / (b : ℚ))
  | .int a, .num b => if b = 0 then .error .zeroDivisionError else .ok ((a : ℚ) / b)
  | .num a, .int b => if b = 0 then .error .zeroDivisionError else .ok (a / (b : ℚ))
  | .num a, .num b => if b = 0 then .error .zeroDivisionError else .ok (a / b)
  | _, _ => .error .typeError

/-- Python `x > 0`: numeric comparison, `TypeError` on non-numbers. -/
def pyGtZero : PyVal → Except PyExc Bool
  | .int n => .ok (decide (0 < n))
  | .num q => .ok (decide (0 < q))
  | _ => .error .typeError

/-! ## Indicator classifier (`backend/app/utils/indicator.py`) -/

/-- The five indicator kinds returned by `determine_indicator_type`. -/
inductive IndType where
  | ip
  | url
  | domain
  | hash
  | email
deriving DecidableEq

/-- Lowercase hex digit or decimal digit, class `[a-f0-9]` of the hash regex
(input is lowercased before matching). -/
def isHexChar (c : Char) : Bool := c.isDigit || ('a' ≤ c && c ≤ 'f')

/-- Class `[a-z]`. -/
def isLowerAlpha (c : Char) : Bool := 'a' ≤ c && c ≤ 'z'

/-- Class `[a-z0-9.-]` of the domain regex. -/
def isDomainChar (c : Char) : Bool := isLowerAlpha c || c.isDigit || c = '.' || c = '-'

/-- Class `[\w.+-]` (ASCII, lowercased input) of the email local part. -/
def isLocalChar (c : Char) : Bool :=
  isLowerAlpha c || c.isDigit || c = '_' || c = '.' || c = '+' || c = '-'

/-- Class `[\w.-]` (ASCII, lowercased input) of the email domain part. -/
def isEmailDomainChar (c : Char) : Bool :=
  isLowerAlpha c || c.isDigit || c = '_' || c = '.' || c = '-'

/-- Regex `^(?:\d{1,3}\.){3}\d{1,3}$`: four dot-separated groups of 1-3 digits. -/
def ipRegexMatch (cs : List Char) : Bool :=
  let parts := cs.splitOn '.'
  parts.length = 4 &&
    parts.all (fun p => 1 ≤ p.length && p.length ≤ 3 && p.all Char.isDigit)

/-- `ipaddress.ip_address` validation of an all-digit dotted quad: every octet
is at most 255 and has no leading zero. -/
def ipValid (cs : List Char) : Bool :=
  (cs.splitOn '.').all
    (fun p => digitsToNat p ≤ 255 && (p.length = 1 || p.head? ≠ some '0'))

/-- Regex `^https?://` (case folded away by the lowercasing). -/
def urlMatch (cs : List Char) : Bool :=
  "http://".toList.isPrefixOf cs || "https://".toList.isPrefixOf cs

/-- Splits at the last `.`: returns the part before it and the part after it.
The regex tails `\.[a-z]{2,}$` / hash-free character classes force any
matching decomposition to use the last dot, so the greedy regex is equivalent
to this split. -/
def splitLastDot (cs : List Char) : Option (List Char × List Char) :=
  let r := cs.reverse
  if r.contains '.' then
    let tldR := r.takeWhile (· ≠ '.')
    some ((r.drop (tldR.length + 1)).reverse, tldR.reverse)
  else none

/-- Regex `^(?!https?://)[a-z0-9.-]+\.[a-z]{2,}$`. -/
def domainMatch (cs : List Char) : Bool :=
  !urlMatch cs &&
    match splitLastDot cs with
    | some (before, tld) =>
      !before.isEmpty && before.all isDomainChar && 2 ≤ tld.length && tld.all isLowerAlpha
    | none => false

/-- Regex `^[a-f0-9]{32}|[a-f0-9]{40}|[a-f0-9]{64}$` under `re.match`: the
alternation is ungrouped, so the first two alternatives are prefix matches
and only the third is anchored at the end. -/
def hashMatch (cs : List Char) : Bool :=
  (32 ≤ cs.length && (cs.take 32).all isHexChar) ||
  (40 ≤ cs.length && (cs.take 40).all isHexChar) ||
  (cs.length = 64 && cs.all isHexChar)

/-- Regex `^[\w.+-]+@[\w.-]+\.[a-z]{2,}$`: the local part runs to the first
`@` (the class excludes `@`), the domain part decomposes at its last dot. -/
def emailMatch (cs : List Char) : Bool :=
  let localPart := cs.takeWhile (· ≠ '@')
  match cs.drop localPart.length with
  | '@' :: rest =>
    !localPart.isEmpty && localPart.all isLocalChar &&
      (match splitLastDot rest with
       | some (before, tld) =>
         !before.isEmpty && before.all isEmailDomainChar &&
           2 ≤ tld.length && tld.all isLowerAlpha
       | none => false)
  | _ => false

/-- Python `str.strip()` (ASCII whitespace model). -/
def isSpaceChar (c : Char) : Bool :=
  c = ' ' || c = '\t' || c = '\n' || c = '\r' || c = '\x0b' || c = '\x0c'

/-- Python `str.lower()` (ASCII model). -/
def lowerChar (c : Char) : Char :=
  if 'A' ≤ c && c ≤ 'Z' then Char.ofNat (c.toNat + 32) else c

/-- `strip().lower()` preprocessing applied by `determine_indicator_type`. -/
def stripLower (cs : List Char) : List Char :=
  (((cs.dropWhile isSpaceChar).reverse.dropWhile isSpaceChar).reverse).map lowerChar

/-- The match cascade of `determine_indicator_type` on the preprocessed
string: ip (regex plus `ipaddress` validation, falling through on failure),
then url, domain, hash, email in `PATTERNS` order; `none` models the
`HTTPException(400, "Unsupported indicator")`. -/
def classify (cs : List Char) : Option IndType :=
  if ipRegexMatch cs && ipValid cs then some .ip
  else if urlMatch cs then some .url
  else if domainMatch cs then some .domain
  else if hashMatch cs then some .hash
  else if emailMatch cs then some .email
  else none

/-- `determine_indicator_type`: strip, lowercase, then classify. -/
def determine_indicator_type (s : String) : Option IndType :=
  classify (stripLower s.toList)

/-! ## Rate limiter (`_RateLimiter` in `backend/app/clients/virustotal_client.py`) -/

/-- State of the leaky-bucket limiter: per-minute and per-day caps, the
window of recent call timestamps (seconds), the daily counter and the
current day marker (`day_start`). -/
structure RLState where
  per_min : Nat
  per_day : Nat
  calls : List ℚ
  day_count : Nat
  day_start : Int
deriving DecidableEq

/-- Outcome of one `acquire`: `rejected` models `raise RateLimitError`
(no waiting), `proceeded s` models returning after sleeping `s`. -/
inductive AcquireResult where
  | rejected
  | proceeded (slept : Option ℚ)
deriving DecidableEq

/-- `[t for t in calls if now - t < 60]`. -/
def pruneCalls (now : ℚ) (calls : List ℚ) : List ℚ :=
  calls.filter (fun t => now - t < 60)

/-- `_RateLimiter.acquire`, translated step by step from the source: reset
counter and window together on a day change, reject when the daily counter
reached the cap, prune the 60s window, sleep `60 - (now - calls[0]) + 0.05`
when the window is full, then append the post-sleep timestamp and increment
the daily counter.  `today` abstracts `datetime.date.today()`, `now`
abstracts `time.time()`. -/
def acquire (s : RLState) (today : Int) (now : ℚ) : RLState × AcquireResult :=
  let s := if today ≠ s.day_start then
    { s with day_start := today, day_count := 0, calls := [] } else s
  if s.per_day ≤ s.day_count then (s, .rejected)
  else
    let pruned := pruneCalls now s.calls
    if s.per_min ≤ pruned.length then
      let wait := 60 - (now - pruned.headD 0) + 1/20
      ({ s with calls := pruned ++ [now + wait], day_count := s.day_count + 1 },
       .proceeded (some wait))
    else
      ({ s with calls := pruned ++ [now], day_count := s.day_count + 1 },
       .proceeded none)

/-- Modelled from the spec sentence of C4, in the order the claim states the
steps: prune first, then the daily-cap rejection, then the per-minute wait,
then append and increment; counter and window reset together at a day
rollover. -/
def acquireSpec (s : RLState) (today : Int) (now : ℚ) : RLState × AcquireResult :=
  let s := if today ≠ s.day_start then
    { s with day_start := today, day_count := 0, calls := [] } else s
  let s := { s with calls := pruneCalls now s.calls }
  if s.per_day ≤ s.day_count then (s, .rejected)
  else if s.per_min ≤ s.calls.length then
    let wait := 60 - (now - s.calls.headD 0) + 1/20
    ({ s with calls := s.calls ++ [now + wait], day_count := s.day_count + 1 },
     .proceeded (some wait))
  else
    ({ s with calls := s.calls ++ [now], day_count := s.day_count + 1 },
     .proceeded none)

/-- The UTC epoch day of a UTC epoch timestamp: the `integer epoch-day key`
the spec's rollover sentence refers to (`int(time.time()//86400)`). -/
def utcDay (now : ℚ) : Int := ⌊now / 86400⌋

/-- Model of `datetime.date.today()` for a process running at a fixed UTC
offset of `tz` seconds: the local calendar day containing the instant
`now`.  It equals `utcDay now` only when `tz = 0`. -/
def localDay (tz : Int) (now : ℚ) : Int := ⌊(now + (tz : ℚ)) / 86400⌋

/-- The call the source actually performs: `acquire` keyed on the local
calendar date from `_dt.date.today()`, not on the UTC epoch day. -/
def acquireLocal (tz : Int) (s : RLState) (now : ℚ) : RLState × AcquireResult :=
  acquire s (localDay tz now) now

/-! ## HTTP retry loop (`VirusTotalClient._request`) -/

/-- One transport response: HTTP status, `Retry-After` header value and the
decoded JSON body (`none` models a JSON decode failure). -/
structure HttpResp where
  status : Nat
  retryAfter : Nat
  body : Option PyVal

/-- The exception classes the client raises (`APIError` hierarchy). -/
inductive ClientError where
  | rateLimitError
  | authenticationError
  | apiError
deriving DecidableEq

/-- The `while True` retry loop of `_request`, driven by the list of
responses the transport would return; the second component counts the
transport requests actually issued.  429 retries until `attempt > 5`
(`RateLimitError`), 401/403 raise `AuthenticationError` at once, 5xx retries
while `attempt < 3`, other non-2xx/3xx raise `APIError`, and a success
returns the decoded body (`APIError` on decode failure).  An exhausted
response list never occurs against a real transport. -/
def requestLoop : List HttpResp → Nat → Except ClientError PyVal × Nat
  | [], _ => (.error .apiError, 0)
  | r :: rest, attempt =>
    let attempt := attempt + 1
    if r.status = 429 then
      if 5 < attempt then (.error .rateLimitError, 1)
      else
        let (res, n) := requestLoop rest attempt
        (res, n + 1)
    else if r.status = 401 ∨ r.status = 403 then (.error .authenticationError, 1)
    else if 500 ≤ r.status ∧ attempt < 3 then
      let (res, n) := requestLoop rest attempt
      (res, n + 1)
    else if ¬(200 ≤ r.status ∧ r.status < 400) then (.error .apiError, 1)
    else match r.body with
      | some v => (.ok v, 1)
      | none => (.error .apiError, 1)

/-- A sequence of independent client calls: the client keeps no state from
one call to the next (`attempt` restarts at 0; there is no failure counter
and no breaker in the source). -/
def clientCalls (seq : List (List HttpResp)) : List (Except ClientError PyVal × Nat) :=
  seq.map (fun rs => requestLoop rs 0)

/-! ## Score fusion (`ThreatAnalysisService` in `threat_analysis_clean.py`) -/

/-- Categorical threat levels of `models.ThreatLevel`. -/
inductive ThreatLevel where
  | critical
  | high
  | medium
  | low
  | benign
deriving DecidableEq

/-- `threat_level_thresholds` sorted descending by threshold, as the code
iterates them. -/
def levelThresholds : List (ThreatLevel × ℚ) :=
  [(.critical, 4/5), (.high, 3/5), (.medium, 2/5), (.low, 1/5), (.benign, 0)]

/-- First level whose threshold the score meets; `benign` if none. -/
def pickLevel (score : ℚ) : List (ThreatLevel × ℚ) → ThreatLevel
  | [] => .benign
  | (l, t) :: rest => if t ≤ score then l else pickLevel score rest

/-- The pydantic `ThreatScore` model: validated scores, level, and the
factors map coerced to floats. -/
structure ThreatScore where
  overall_score : ℚ
  confidence : ℚ
  threat_level : ThreatLevel
  factors : List (String × ℚ)
deriving DecidableEq

/-- Pydantic coercion of a factor value to `float`: numbers pass, a string
passes only when `float(s)` parses, anything else is a `ValidationError`. -/
def coerceFloat : PyVal → Except PyExc ℚ
  | .int n => .ok (n : ℚ)
  | .num q => .ok q
  | .str s => match parseFloat? s with
    | some q => .ok q
    | none => .error .validationError
  | _ => .error .validationError

/-- Construction of a pydantic `ThreatScore`: `overall_score` and
`confidence` must lie in `[0,1]` (`Field(ge=0.0, le=1.0)`), are rounded to
three decimals by the field validator, and every factor value must coerce
to a float. -/
def mkThreatScore (score conf : ℚ) (lvl : ThreatLevel)
    (factors : List (String × PyVal)) : Except PyExc ThreatScore := do
  if ¬(0 ≤ score ∧ score ≤ 1) then throw .validationError
  if ¬(0 ≤ conf ∧ conf ≤ 1) then throw .validationError
  let fs ← factors.mapM (fun kv => do pure (kv.1, ← coerceFloat kv.2))
  pure ⟨round3 score, round3 conf, lvl, fs⟩

/-- Body of `_score_virustotal` before its `try/except`: defensive `get`
chain into `last_analysis_stats`, then
`detection_score = (malicious + suspicious*0.5)/total` and
`confidence = min(total/70.0, 1.0)`; `(0.0, 0.0)` when no engines. -/
def score_virustotal_body (vt : PyVal) : Except PyExc (ℚ × ℚ) := do
  let dataV ← pyGet vt "data" (.dict [])
  let attrs ← pyGet dataV "attributes" (.dict [])
  let stats ← pyGet attrs "last_analysis_stats" (.dict [])
  let mal ← pyGet stats "malicious" (.int 0)
  let susp ← pyGet stats "suspicious" (.int 0)
  let harm ← pyGet stats "harmless" (.int 0)
  let und ← pyGet stats "undetected" (.int 0)
  let t1 ← pyAdd mal susp
  let t2 ← pyAdd t1 harm
  let total ← pyAdd t2 und
  if pyEqZero total then return (0, 0)
  let half ← pyMulHalf susp
  let numer ← pyAdd mal (.num half)
  let ds ← pyDivVal numer total
  let conf ← pyDivVal total (.num 70)
  return (ds, min conf 1)

/-- `_score_virustotal`: the body under `except (KeyError, TypeError)`,
which yields `(0.0, 0.0)`; any other exception (notably `AttributeError`
from `.get` on a non-dict) propagates. -/
def score_virustotal (vt : PyVal) : Except PyExc (ℚ × ℚ) :=
  match score_virustotal_body vt with
  | .error .keyError => .ok (0, 0)
  | .error .typeError => .ok (0, 0)
  | r => r

/-- Body of `_score_abuseipdb`: `abuseConfidenceScore/100.0` and a fixed
confidence of 0.8 when the score is positive, else 0.3. -/
def score_abuseipdb_body (ab : PyVal) : Except PyExc (ℚ × ℚ) := do
  let dataV ← pyGet ab "data" (.dict [])
  let cs ← pyGet dataV "abuseConfidenceScore" (.int 0)
  let score ← pyDivVal cs (.num 100)
  let pos ← pyGtZero cs
  return (score, if pos then 4/5 else 3/10)

/-- `_score_abuseipdb` with its `except (KeyError, TypeError)` handler. -/
def score_abuseipdb (ab : PyVal) : Except PyExc (ℚ × ℚ) :=
  match score_abuseipdb_body ab with
  | .error .keyError => .ok (0, 0)
  | .error .typeError => .ok (0, 0)
  | r => r

/-- Final step of `_calculate_threat_score`: overall confidence is the mean
of the collected confidence factors (0 with none), the level comes from the
descending threshold table, and the overall score is `min(total, 1.0)`. -/
def finishScore (factors : List (String × ℚ)) (total : ℚ) (cf : List ℚ) :
    Except PyExc ThreatScore :=
  let confidence := if cf.length = 0 then 0 else cf.sum / cf.length
  mkThreatScore (min total 1) confidence (pickLevel total levelThresholds)
    (factors.map (fun kv => (kv.1, PyVal.num kv.2)))

/-- `_calculate_threat_score`: VirusTotal contributes with weight 0.7 and
AbuseIPDB with weight 0.3 whenever their keys are present in
`raw_responses`; each present provider appends its confidence to the
confidence-factor list unconditionally. -/
def calculateThreatScore (raw : List (String × PyVal)) : Except PyExc ThreatScore := do
  let acc1 ←
    match raw.lookup "virustotal" with
    | some vt => do
      let sc ← score_virustotal vt
      pure ([("virustotal", sc.1)], sc.1 * (7/10), [sc.2])
    | none => pure (([] : List (String × ℚ)), (0 : ℚ), ([] : List ℚ))
  let acc2 ←
    match raw.lookup "abuseipdb" with
    | some ab => do
      let sc ← score_abuseipdb ab
      pure (acc1.1 ++ [("abuseipdb", sc.1)], acc1.2.1 + sc.1 * (3/10), acc1.2.2 ++ [sc.2])
    | none => pure acc1
  finishScore acc2.1 acc2.2.1 acc2.2.2

/-- A well-formed VirusTotal report with the given
`last_analysis_stats` counts. -/
def mkVTPayload (m s h u : Nat) : PyVal :=
  .dict [("data", .dict [("attributes", .dict [("last_analysis_stats",
    .dict [("malicious", .int m), ("suspicious", .int s),
           ("harmless", .int h), ("undetected", .int u)])])])]

/-- A well-formed AbuseIPDB response with the given confidence score. -/
def mkAbusePayload (cs : Int) : PyVal :=
  .dict [("data", .dict [("abuseConfidenceScore", .int cs)])]

/-! ## Quota facade (`vt_call` in `backend/app/services/virustotal_service.py`) -/

/-- `LIMITS = {"free": 20, "medium": 500, "plus": 2000, "admin": 10000}`. -/
def LIMITS : List (String × Nat) :=
  [("free", 20), ("medium", 500), ("plus", 2000), ("admin", 10000)]

/-- `LIMITS.get(tier, 0)`. -/
def limitOf (tier : String) : Nat := (LIMITS.lookup tier).getD 0

/-- `f"vt:{uid}:{day}"` where `day = int(time.time()//86400)` is the UTC
epoch day. -/
def quotaKey (uid : String) (day : Nat) : String :=
  "vt:" ++ uid ++ ":" ++ toString day

/-- The Redis counter store; `incr` is the atomic post-increment. -/
def bumpStore (store : String → Nat) (key : String) : String → Nat :=
  fun k => if k = key then store k + 1 else store k

/-- Result of `await r.get(cache_key)`: a backend exception, a miss (`None`
or falsy), or a hit whose payload either decodes (`some v`) or fails
`json.loads` (`none`). -/
inductive CacheRead where
  | fail
  | miss
  | hit (parsed : Option PyVal)

/-- Outcome of `call_endpoint` as observed by `vt_call`: a decoded body or
one of the client exceptions (carrying `str(exc)`). -/
inductive ProviderResult where
  | ok (v : PyVal)
  | rateLimited
  | authError (msg : String)
  | apiError (msg : String)

/-- The external effects one `vt_call` invocation can hit. -/
structure VtEnv where
  cacheRead : CacheRead
  provider : ProviderResult
  cacheWriteOk : Bool

/-- What `vt_call` raises: an `HTTPException(status, detail)` or an uncaught
Redis backend exception. -/
inductive VtRaise where
  | httpExc (status : Nat) (detail : String)
  | redisErr
deriving DecidableEq

/-- Counts of the externally visible operations one `vt_call` performed. -/
structure VtTrace where
  cacheReads : Nat
  providerCalls : Nat
  cacheWrites : Nat
deriving DecidableEq

/-- Decision logic of `vt_call` once the INCR on the per-tenant
per-epoch-day counter returned the post-increment value `v`: deny with
`HTTPException(429, "daily quota exceeded")` when `v`
exceeds the tier limit, otherwise read the cache (a decode failure falls
through to the provider; a backend exception propagates), call the provider
on a miss, store the result (`setex`; a backend exception propagates), and
map client errors: `RateLimitError` to 429, any other `APIError` (including
`AuthenticationError`) to 502. -/
def vt_call_result (v : Nat) (tier : String) (env : VtEnv) :
    Except VtRaise PyVal × VtTrace :=
  if limitOf tier < v then
    (.error (.httpExc 429 "daily quota exceeded"), ⟨0, 0, 0⟩)
  else
    match env.cacheRead with
    | .fail => (.error .redisErr, ⟨1, 0, 0⟩)
    | .hit (some v) => (.ok v, ⟨1, 0, 0⟩)
    | .miss | .hit none =>
      match env.provider with
      | .ok v =>
        if env.cacheWriteOk then (.ok v, ⟨1, 1, 1⟩)
        else (.error .redisErr, ⟨1, 1, 1⟩)
      | .rateLimited =>
        (.error (.httpExc 429 "VirusTotal key limit"), ⟨1, 1, 0⟩)
      | .authError msg => (.error (.httpExc 502 msg), ⟨1, 1, 0⟩)
      | .apiError msg => (.error (.httpExc 502 msg), ⟨1, 1, 0⟩)

/-- `vt_call` proper: the atomic INCR happens first and unconditionally;
everything after depends only on the post-increment value. -/
def vt_call (store : String → Nat) (uid : String) (day : Nat) (tier : String)
    (env : VtEnv) : (String → Nat) × Except VtRaise PyVal × VtTrace :=
  let key := quotaKey uid day
  (bumpStore store key, vt_call_result (store key + 1) tier env)

/-! ## Analysis entry point (`ThreatAnalysisService.analyze_indicator`) -/

/-- `models.AnalysisStatus` (the two values the analysis path produces). -/
inductive AnalysisStatus where
  | completed
  | failed
deriving DecidableEq

/-- The slice of `ThreatIntelligenceResult` the claims are about. -/
structure AnalysisResult where
  status : AnalysisStatus
  threat_score : ThreatScore
deriving DecidableEq

/-- Exceptions that can occur inside the `try` body of `analyze_indicator`. -/
inductive AnalysisExc where
  | http (status : Nat) (detail : String)
  | redis
  | py (e : PyExc)
deriving DecidableEq

/-- `str(e)` for the exceptions above (Python renders `HTTPException` as
`"<status>: <detail>"`; the library messages are representative). -/
def excMessage : AnalysisExc → String
  | .http st d => toString st ++ ": " ++ d
  | .redis => "Error connecting to redis:6379"
  | .py .keyError => "'last_analysis_stats'"
  | .py .typeError => "unsupported operand type(s) for +: 'int' and 'str'"
  | .py .attributeError => "'int' object has no attribute 'get'"
  | .py .zeroDivisionError => "division by zero"
  | .py .validationError => "1 validation error for ThreatScore"

/-- The mock AbuseIPDB payload returned by `_analyze_abuseipdb`. -/
def abuseMockPayload : PyVal :=
  .dict [("data", .dict [("abuseConfidenceScore", .int 0),
    ("countryCode", .str "US"),
    ("usageType", .str "Data Center/Web Hosting/Transit"),
    ("isp", .str "Example ISP"),
    ("totalReports", .int 0), ("numDistinctUsers", .int 0)])]

/-- The `try` body of `analyze_indicator` up to the threat score: the
VirusTotal call through `vt_call`, the AbuseIPDB mock for IPs, then score
fusion. -/
def analysisBody (store : String → Nat) (uid tier : String) (day : Nat)
    (env : VtEnv) (indType : IndType) : Except AnalysisExc ThreatScore :=
  match (vt_call store uid day tier env).2.1 with
  | .error (.httpExc st d) => .error (.http st d)
  | .error .redisErr => .error .redis
  | .ok vtData =>
    let raw := [("virustotal", vtData)] ++
      (if indType = IndType.ip then [("abuseipdb", abuseMockPayload)] else [])
    match calculateThreatScore raw with
    | .ok ts => .ok ts
    | .error e => .error (.py e)

/-- `analyze_indicator` after a successful classification: any exception in
the body is caught by `except Exception` and converted to a FAILED result
whose `ThreatScore` is built with `factors={"error": str(e)}` - that pydantic
construction can itself raise, and such an exception propagates to the
caller. -/
def analyze_indicator (store : String → Nat) (uid tier : String) (day : Nat)
    (env : VtEnv) (indType : IndType) : Except AnalysisExc AnalysisResult :=
  match analysisBody store uid tier day env indType with
  | .ok ts => .ok ⟨.completed, ts⟩
  | .error e =>
    match mkThreatScore 0 0 .benign [("error", .str (excMessage e))] with
    | .ok ts => .ok ⟨.failed, ts⟩
    | .error ve => .error (.py ve)

/-! ## Theorems -/

/-- Helper: the result component of `vt_call` in terms of `vt_call_result`. -/
theorem vt_call_eq (store : String → Nat) (uid : String) (day : Nat)
    (tier : String) (env : VtEnv) :
    vt_call store uid day tier env =
      (bumpStore store (quotaKey uid day),
       vt_call_result (store (quotaKey uid day) + 1) tier env) := rfl

/-- Helper: a denied `vt_call_result`. -/
theorem vt_call_result_denied (v : Nat) (tier : String) (env : VtEnv)
    (h : limitOf tier < v) :
    vt_call_result v tier env =
      (.error (.httpExc 429 "daily quota exceeded"), ⟨0, 0, 0⟩) := by
  simp [vt_call_result, h]

/-- Helper: an allowed `vt_call_result` never yields the quota-denial error. -/
theorem vt_call_result_allowed (v : Nat) (tier : String) (env : VtEnv)
    (h : ¬limitOf tier < v) :
    (vt_call_result v tier env).1 ≠ .error (.httpExc 429 "daily quota exceeded") := by
  obtain ⟨cr, pr, cw⟩ := env
  simp only [vt_call_result, if_neg h]
  cases cr with
  | fail => simp
  | miss =>
    cases pr <;> cases cw <;> simp
  | hit p =>
    cases p with
    | none => cases pr <;> cases cw <;> simp
    | some v => simp

/-- C1: for every tenant, tier in {free, medium, plus, admin} and call,
`vt_call` performs exactly one atomic increment on the counter keyed by the
tenant and the current UTC epoch day, raises the 429 quota denial exactly
when the post-increment value exceeds `limit(tier)`, and on denial performs
no cache access and no provider transport call. -/
theorem C1_vt_call_quota (store : String → Nat) (uid : String) (day : Nat)
    (tier : String) (env : VtEnv)
    (htier : tier = "free" ∨ tier = "medium" ∨ tier = "plus" ∨ tier = "admin") :
    (vt_call store uid day tier env).1 (quotaKey uid day)
        = store (quotaKey uid day) + 1
    ∧ (∀ k, k ≠ quotaKey uid day → (vt_call store uid day tier env).1 k = store k)
    ∧ ((vt_call store uid day tier env).2.1
          = .error (.httpExc 429 "daily quota exceeded")
        ↔ limitOf tier < store (quotaKey uid day) + 1)
    ∧ (limitOf tier < store (quotaKey uid day) + 1 →
        (vt_call store uid day tier env).2.2 = ⟨0, 0, 0⟩) := by
  refine ⟨by simp [vt_call, bumpStore], fun k hk => by simp [vt_call, bumpStore, hk], ?_, ?_⟩
  · constructor
    · intro h
      by_contra hq
      exact vt_call_result_allowed _ tier env hq h
    · intro h
      rw [vt_call_eq]
      simp [vt_call_result_denied _ tier env h]
  · intro h
    rw [vt_call_eq]
    simp [vt_call_result_denied _ tier env h]

/-- C1 witness: concrete free-tier call below the cap. -/
theorem C1_vt_call_quota_witness :
    (vt_call (fun _ => 0) "u" 0 "free" ⟨.miss, .ok (.dict []), true⟩).1 (quotaKey "u" 0)
      = (fun _ => (0 : Nat)) (quotaKey "u" 0) + 1 :=
  (C1_vt_call_quota (fun _ => 0) "u" 0 "free" ⟨.miss, .ok (.dict []), true⟩ (Or.inl rfl)).1

/-- C5 counterexample: with the quota available and the provider healthy, a
cache-backend failure on the read makes `vt_call` raise the Redis exception
instead of returning the provider result; the provider is never even
called, refuting fail-open. -/
theorem C5_cache_fail_closed_cex :
    (vt_call (fun _ => 0) "u" 0 "free" ⟨.fail, .ok (.dict []), true⟩).2.1
        = .error .redisErr
    ∧ (vt_call (fun _ => 0) "u" 0 "free" ⟨.fail, .ok (.dict []), true⟩).2.2.providerCalls
        = 0
    ∧ (Except.error VtRaise.redisErr : Except VtRaise PyVal) ≠ .ok (.dict []) :=
  ⟨rfl, rfl, fun h => Except.noConfusion h⟩

/-- C5 amended: only a cached value that fails to decode is treated as a
miss (behaving exactly like one); a cache-backend exception, on the read or
on the write after a successful provider call, propagates and fails the
request. -/
theorem C5_cache_semantics :
    (∀ (store : String → Nat) (uid : String) (day : Nat) (tier : String)
        (env : VtEnv),
      vt_call store uid day tier { env with cacheRead := .hit none }
        = vt_call store uid day tier { env with cacheRead := .miss })
    ∧ (∀ (store : String → Nat) (uid : String) (day : Nat) (tier : String)
        (env : VtEnv),
        store (quotaKey uid day) + 1 ≤ limitOf tier → env.cacheRead = .fail →
        (vt_call store uid day tier env).2.1 = .error .redisErr
        ∧ (vt_call store uid day tier env).2.2.providerCalls = 0)
    ∧ (∀ (store : String → Nat) (uid : String) (day : Nat) (tier : String)
        (env : VtEnv) (v : PyVal),
        store (quotaKey uid day) + 1 ≤ limitOf tier → env.cacheRead = .miss →
        env.provider = .ok v → env.cacheWriteOk = false →
        (vt_call store uid day tier env).2.1 = .error .redisErr) := by
  refine ⟨fun store uid day tier env => rfl, ?_, ?_⟩
  · intro store uid day tier env hq hr
    rw [vt_call_eq]
    simp [vt_call_result, Nat.not_lt.mpr hq, hr]
  · intro store uid day tier env v hq hr hp hw
    rw [vt_call_eq]
    simp [vt_call_result, Nat.not_lt.mpr hq, hr, hp, hw]

/-- C5 witness: concrete instantiation of the amended cache semantics. -/
theorem C5_cache_semantics_witness :
    (vt_call (fun _ => 0) "u" 0 "free" ⟨.fail, .ok (.dict []), true⟩).2.1
        = .error .redisErr
    ∧ (vt_call (fun _ => 0) "u" 0 "free" ⟨.fail, .ok (.dict []), true⟩).2.2.providerCalls
        = 0 :=
  C5_cache_semantics.2.1 (fun _ => 0) "u" 0 "free"
    ⟨.fail, .ok (.dict []), true⟩ (by decide) rfl

/-- C8 counterexample: an `AuthenticationError` from the provider surfaces
as HTTP 502 (it is caught by the generic `except APIError` arm), not as
401/403 as the claim states. -/
theorem C8_auth_maps_502_cex :
    (vt_call (fun _ => 0) "u" 0 "free" ⟨.miss, .authError "Forbidden", true⟩).2.1
        = .error (.httpExc 502 "Forbidden")
    ∧ (502 : Nat) ≠ 401 ∧ (502 : Nat) ≠ 403 :=
  ⟨rfl, by decide, by decide⟩

/-- C8 amended: the client maps provider HTTP 401/403 to
`AuthenticationError` without retry, and the service maps `RateLimitError`
to HTTP 429 and `AuthenticationError` - like every other `APIError` - to
HTTP 502, never to 401/403. -/
theorem C8_error_status_mapping :
    (∀ (rest : List HttpResp) (a : Nat) (r : HttpResp),
      r.status = 401 ∨ r.status = 403 →
      requestLoop (r :: rest) a = (.error .authenticationError, 1))
    ∧ (∀ (store : String → Nat) (uid : String) (day : Nat) (tier : String)
        (env : VtEnv),
        store (quotaKey uid day) + 1 ≤ limitOf tier →
        env.cacheRead = .miss ∨ env.cacheRead = .hit none →
        (env.provider = .rateLimited →
          (vt_call store uid day tier env).2.1
            = .error (.httpExc 429 "VirusTotal key limit"))
        ∧ (∀ msg, env.provider = .authError msg →
          (vt_call store uid day tier env).2.1 = .error (.httpExc 502 msg))) := by
  constructor
  · intro rest a r hr
    have h429 : ¬r.status = 429 := by rcases hr with h | h <;> simp [h]
    simp [requestLoop, h429, hr]
  · intro store uid day tier env hq hr
    constructor
    · intro hp
      rw [vt_call_eq]
      rcases hr with h | h <;>
        simp [vt_call_result, Nat.not_lt.mpr hq, h, hp]
    · intro msg hp
      rw [vt_call_eq]
      rcases hr with h | h <;>
        simp [vt_call_result, Nat.not_lt.mpr hq, h, hp]

/-- C8 witness: concrete instantiation of the amended mapping. -/
theorem C8_error_status_mapping_witness :
    requestLoop [⟨403, 60, none⟩] 0 = (.error .authenticationError, 1)
    ∧ (vt_call (fun _ => 0) "u" 0 "free" ⟨.miss, .rateLimited, true⟩).2.1
        = .error (.httpExc 429 "VirusTotal key limit") :=
  ⟨C8_error_status_mapping.1 [] 0 ⟨403, 60, none⟩ (Or.inr rfl),
   (C8_error_status_mapping.2 (fun _ => 0) "u" 0 "free"
      ⟨.miss, .rateLimited, true⟩ (by decide) (Or.inl rfl)).1 rfl⟩

/-- C10: at the failing input - a free-tier tenant already at its daily cap -
the quota denial is caught by `except Exception`, but the FAILED result the
handler builds puts the error string into `factors : Dict[str, float]`, so
the pydantic construction raises `ValidationError` and `analyze_indicator`
propagates an exception instead of returning the FAILED result the claim
(and the code's own comment) promises. -/
theorem C10_failed_result_raises :
    analyze_indicator (fun _ => 20) "u" "free" 0 ⟨.miss, .ok (.dict []), true⟩ .domain
      = .error (.py .validationError) := rfl

/-- C3 counterexample: six consecutive calls each see three 500 responses
and fail; no breaker ever opens - the sixth call (after five consecutive
failures) still issues three transport requests, not the zero network I/O
with `ProviderUnavailable` that the claim describes. -/
theorem C3_no_breaker_cex :
    (clientCalls (List.replicate 6 (List.replicate 3 ⟨500, 60, none⟩))).get? 5
        = some (.error .apiError, 3)
    ∧ (3 : Nat) ≠ 0 :=
  ⟨rfl, by decide⟩

/-- C3 amended: the client has no circuit breaker and keeps no failure
counter between calls; every call issues at least one transport request
regardless of any history of failures (transient errors are handled only by
the bounded in-call retry loop). -/
theorem C3_always_attempts_network (r : HttpResp) (rs : List HttpResp) (attempt : Nat) :
    1 ≤ (requestLoop (r :: rs) attempt).2 := by
  unfold requestLoop
  dsimp only
  split
  · split
    · simp
    · cases requestLoop rs (attempt + 1)
      simp
  · split
    · simp
    · split
      · cases requestLoop rs (attempt + 1)
        simp
      · split
        · simp
        · cases r.body <;> simp

/-- Helper: the ungrouped hash alternation collapses to a 32-hex-char
prefix test, because a 40-hex prefix and an exact-64-hex string both have a
32-hex prefix. -/
theorem hashMatch_iff (cs : List Char) :
    hashMatch cs = true ↔ 32 ≤ cs.length ∧ (cs.take 32).all isHexChar = true := by
  simp only [hashMatch, Bool.or_eq_true, Bool.and_eq_true, decide_eq_true_eq]
  constructor
  · rintro ((h | h) | h)
    · exact h
    · refine ⟨le_trans (by norm_num) h.1, ?_⟩
      have ht : cs.take 32 = (cs.take 40).take 32 := by
        rw [List.take_take]
        norm_num
      rw [ht, List.all_eq_true]
      rw [List.all_eq_true] at h
      intro x hx
      exact h.2 x (List.take_subset 32 (cs.take 40) hx)
    · refine ⟨by omega, ?_⟩
      rw [List.all_eq_true]
      rw [List.all_eq_true] at h
      intro x hx
      exact h.2 x (List.take_subset 32 cs hx)
  · exact fun h => Or.inl (Or.inl h)

/-- C9 counterexample: a 33-character hexadecimal string - not length 32,
40 or 64 - is nevertheless classified as `hash` (it is untouched by the
ip/url/domain branches), refuting the exact-length claim. -/
theorem C9_hash_length_cex :
    determine_indicator_type (String.mk (List.replicate 33 'a')) = some .hash
    ∧ (List.replicate 33 'a').all isHexChar = true
    ∧ ¬((List.replicate 33 'a').length = 32 ∨ (List.replicate 33 'a').length = 40
        ∨ (List.replicate 33 'a').length = 64) :=
  ⟨by decide, by decide, by decide⟩

/-- C9 amended: for inputs not classified as ip, url or domain, the
classifier returns `hash` exactly when the string is at least 32 characters
long and its first 32 characters are hexadecimal - so 33-character (and
longer) hex-prefixed strings are also classified as `hash`, not only exact
lengths 32/40/64. -/
theorem C9_hash_rule (cs : List Char)
    (hip : (ipRegexMatch cs && ipValid cs) = false)
    (hurl : urlMatch cs = false)
    (hdom : domainMatch cs = false) :
    classify cs = some .hash
      ↔ 32 ≤ cs.length ∧ (cs.take 32).all isHexChar = true := by
  rw [← hashMatch_iff]
  simp only [classify, hip, hurl, hdom, Bool.false_eq_true, if_false]
  by_cases hh : hashMatch cs = true
  · simp [hh]
  · simp only [Bool.not_eq_true] at hh
    simp only [hh, Bool.false_eq_true, if_false]
    constructor
    · intro h
      by_cases he : emailMatch cs = true <;> simp [he] at h
    · intro h
      cases h
  
/-- C9 witness: a 32-character hex string satisfies the amended rule. -/
theorem C9_hash_rule_witness :
    classify (List.replicate 32 'a') = some .hash :=
  (C9_hash_rule (List.replicate 32 'a') (by decide) (by decide) (by decide)).mpr
    (by decide)

/-- Helper: pruning the window is idempotent. -/
theorem pruneCalls_idem (now : ℚ) (l : List ℚ) :
    pruneCalls now (pruneCalls now l) = pruneCalls now l := by
  simp [pruneCalls, List.filter_filter]

/-- Helper: pruning commutes with appending a fresh timestamp. -/
theorem pruneCalls_append_single (now t : ℚ) (h : now - t < 60) (l : List ℚ) :
    pruneCalls now (l ++ [t]) = pruneCalls now l ++ [t] := by
  simp [pruneCalls, List.filter_append, h]

/-- Helper: the oldest retained timestamp of a nonempty pruned window is
less than 60 seconds old. -/
theorem pruneCalls_headD_lt (now : ℚ) (l : List ℚ)
    (h : pruneCalls now l ≠ []) : now - (pruneCalls now l).headD 0 < 60 := by
  cases hp : pruneCalls now l with
  | nil => exact absurd hp h
  | cons x xs =>
    have hx : x ∈ pruneCalls now l := by
      rw [hp]; exact List.mem_cons_self x xs
    have := List.of_mem_filter (p := fun t => decide (now - t < 60)) hx
    simpa using this

/-- Helper: for any day marker, the source `acquire` (which checks the
daily cap before pruning) is observationally equivalent to the claimed
step order (prune, daily reject, per-minute wait of
`(60 - age_of_oldest_retained) + 0.05`, append, increment, with counter
and window reset together at a day-marker change): both return the same
outcome, and the states agree up to re-pruning the window at the same
instant. -/
theorem acquire_refines_spec_order (s : RLState) (today : Int) (now : ℚ)
    (hmin : 0 < s.per_min) :
    (acquireSpec s today now).2 = (acquire s today now).2
    ∧ (acquireSpec s today now).1 =
        { (acquire s today now).1 with
            calls := pruneCalls now (acquire s today now).1.calls } := by
  by_cases hd : today ≠ s.day_start
  · simp only [acquire, acquireSpec, if_pos hd]
    by_cases hc : s.per_day ≤ 0
    · simp [hc, pruneCalls]
    · have hw : ¬s.per_min ≤ (pruneCalls now ([] : List ℚ)).length := by
        simp [pruneCalls]
        omega
      simp only [if_neg hc]
      simp only [pruneCalls, List.filter_nil] at hw ⊢
      simp only [if_neg hw]
      refine ⟨trivial, ?_⟩
      simp [pruneCalls]
  · simp only [acquire, acquireSpec, if_neg hd]
    by_cases hc : s.per_day ≤ s.day_count
    · simp [hc]
    · simp only [if_neg hc]
      by_cases hw : s.per_min ≤ (pruneCalls now s.calls).length
      · have hne : pruneCalls now s.calls ≠ [] := by
          intro h0
          rw [h0] at hw
          simp at hw
          omega
        have hold := pruneCalls_headD_lt now s.calls hne
        have hwait : now - (now + (60 - (now - (pruneCalls now s.calls).headD 0) + 1/20)) < 60 := by
          linarith
        simp only [if_pos hw]
        refine ⟨trivial, ?_⟩
        simp only [RLState.mk.injEq]
        rw [pruneCalls_append_single _ _ hwait, pruneCalls_idem]
        simp
      · simp only [if_neg hw]
        refine ⟨trivial, ?_⟩
        simp only [RLState.mk.injEq]
        have hself : now - now < 60 := by norm_num
        rw [pruneCalls_append_single _ _ hself, pruneCalls_idem]
        simp

/-- C4 counterexample: a process at UTC+1, just after local midnight but
before UTC midnight (now = 82801s into epoch day 0), with the daily cap
already reached.  No UTC day rollover has occurred (`utcDay` still equals
the state's day marker), so under the claim's reset rule the call is
rejected at the cap - but the code keys the reset on `date.today()`, whose
local calendar day has already changed, so it has reset counter and window
and admits the call.  The reset is therefore not `exactly at UTC day
rollover`. -/
theorem C4_utc_reset_cex :
    utcDay 82801 = 0
    ∧ localDay 3600 82801 = 1
    ∧ (acquire ⟨4, 5, [], 5, 0⟩ (utcDay 82801) 82801).2 = .rejected
    ∧ (acquireLocal 3600 ⟨4, 5, [], 5, 0⟩ 82801).2 = .proceeded none := by
  have h1 : utcDay 82801 = 0 := by norm_num [utcDay]
  have h2 : localDay 3600 82801 = 1 := by norm_num [localDay]
  refine ⟨h1, h2, ?_, ?_⟩
  · rw [h1]
    simp [acquire]
  · unfold acquireLocal
    rw [h2]
    simp [acquire, pruneCalls]

/-- C4 amended: `acquire` follows the claimed steps - daily-cap rejection
with no waiting, pruning, a suspension of `(60 - age_of_oldest_retained) +
0.05` on a full window, then append and increment (the code checks the
daily cap before pruning, which is observationally equivalent to the
claimed prune-first order) - and the daily counter and window are reset
together when the process-local calendar date (`date.today()`) changes,
which coincides with UTC day rollover only for a process running in UTC,
not exactly at UTC rollover in general. -/
theorem C4_acquire_local_refines_spec (tz : Int) (s : RLState) (now : ℚ)
    (hmin : 0 < s.per_min) :
    (acquireSpec s (localDay tz now) now).2 = (acquireLocal tz s now).2
    ∧ (acquireSpec s (localDay tz now) now).1 =
        { (acquireLocal tz s now).1 with
            calls := pruneCalls now (acquireLocal tz s now).1.calls } :=
  acquire_refines_spec_order s (localDay tz now) now hmin

/-- C4 witness: fresh limiter state at the default caps, UTC process. -/
theorem C4_acquire_local_refines_spec_witness :
    (acquireSpec ⟨4, 500, [], 0, 0⟩ (localDay 0 0) 0).2
      = (acquireLocal 0 ⟨4, 500, [], 0, 0⟩ 0).2 :=
  (C4_acquire_local_refines_spec 0 ⟨4, 500, [], 0, 0⟩ 0 (by decide)).1

/-- Helper: scoring a well-formed VirusTotal report: zero engines give
`(0, 0)`, otherwise `(malicious + suspicious/2)/total` and
`min(total/70, 1)`. -/
theorem score_virustotal_mk (m s h u : Nat) :
    score_virustotal (mkVTPayload m s h u) =
      .ok (if m + s + h + u = 0 then ((0 : ℚ), (0 : ℚ))
        else (((m : ℚ) + (s : ℚ) / 2) / ((m : ℚ) + s + h + u),
          min (((m : ℚ) + s + h + u) / 70) 1)) := by
  have hbody : score_virustotal_body (mkVTPayload m s h u) =
      (if (((m : Int) + (s : Int) + (h : Int) + (u : Int)) == 0) = true
       then pure ((0 : ℚ), (0 : ℚ))
       else do
         let ds ← pyDivVal (.num (((m : Int) : ℚ) + ((s : Int) : ℚ) / 2))
           (.int ((m : Int) + (s : Int) + (h : Int) + (u : Int)))
         let conf ← pyDivVal (.int ((m : Int) + (s : Int) + (h : Int) + (u : Int))) (.num 70)
         pure (ds, min conf 1)) := rfl
  unfold score_virustotal
  rw [hbody]
  by_cases hz : m + s + h + u = 0
  · have hzi : ((m : Int) + (s : Int) + (h : Int) + (u : Int)) = 0 := by exact_mod_cast hz
    rw [if_pos (by simp [hzi])]
    simp [hz]
    rfl
  · have hzi : ¬((m : Int) + (s : Int) + (h : Int) + (u : Int)) = 0 := by
      intro hq
      exact hz (by exact_mod_cast hq)
    rw [if_neg (by simp [hzi])]
    have hds : pyDivVal (.num (((m : Int) : ℚ) + ((s : Int) : ℚ) / 2))
        (.int ((m : Int) + (s : Int) + (h : Int) + (u : Int)))
        = .ok ((((m : Int) : ℚ) + ((s : Int) : ℚ) / 2)
            / (((m : Int) + (s : Int) + (h : Int) + (u : Int) : Int) : ℚ)) := by
      simp [pyDivVal, hzi]
    have hconf : pyDivVal (.int ((m : Int) + (s : Int) + (h : Int) + (u : Int))) (.num 70)
        = .ok ((((m : Int) + (s : Int) + (h : Int) + (u : Int) : Int) : ℚ) / 70) := by
      norm_num [pyDivVal]
    rw [hds, hconf]
    simp only [if_neg hz]
    show Except.ok _ = Except.ok _
    rw [Except.ok.injEq, Prod.mk.injEq]
    constructor
    · push_cast
      ring
    · congr 1
      push_cast
      ring
/-- Helper: pydantic float-coercion of a factor map whose values are
already floats is the identity. -/
theorem mapM_coerce_num (l : List (String × ℚ)) :
    (l.map (fun kv => (kv.1, PyVal.num kv.2))).mapM
      (fun kv => do pure (kv.1, ← coerceFloat kv.2)) = .ok l := by
  induction l with
  | nil => rfl
  | cons x xs ih =>
    simp only [List.map_cons, List.mapM_cons, ih]
    rfl

/-- Helper: constructing a `ThreatScore` from in-range values and float
factors succeeds and rounds the two scores. -/
theorem mkThreatScore_num (S C : ℚ) (lvl : ThreatLevel) (l : List (String × ℚ))
    (hS0 : 0 ≤ S) (hS1 : S ≤ 1) (hC0 : 0 ≤ C) (hC1 : C ≤ 1) :
    mkThreatScore S C lvl (l.map (fun kv => (kv.1, PyVal.num kv.2)))
      = .ok ⟨round3 S, round3 C, lvl, l⟩ := by
  unfold mkThreatScore
  rw [if_neg (by simp [hS0, hS1]), if_neg (by simp [hC0, hC1])]
  rw [mapM_coerce_num]
  rfl

/-- Helper: fusion over a response set containing only VirusTotal. -/
theorem calc_single_vt (vt : PyVal) (vs vc : ℚ)
    (hvt : score_virustotal vt = .ok (vs, vc)) :
    calculateThreatScore [("virustotal", vt)]
      = finishScore [("virustotal", vs)] (vs * (7/10)) [vc] := by
  unfold calculateThreatScore
  simp [List.lookup, hvt]
  rfl

/-- Helper: fusion over VirusTotal plus AbuseIPDB responses. -/
theorem calc_vt_abuse (vt ab : PyVal) (vs vc as_ ac : ℚ)
    (hvt : score_virustotal vt = .ok (vs, vc))
    (hab : score_abuseipdb ab = .ok (as_, ac)) :
    calculateThreatScore [("virustotal", vt), ("abuseipdb", ab)]
      = finishScore [("virustotal", vs), ("abuseipdb", as_)]
          (vs * (7/10) + as_ * (3/10)) [vc, ac] := by
  unfold calculateThreatScore
  simp [List.lookup, hvt, hab]
  rfl

/-- Helper: fusion over an empty response set. -/
theorem calc_empty : calculateThreatScore [] = finishScore [] 0 [] := rfl

/-- Helper: the final fusion step on in-range values. -/
theorem finishScore_num (factors : List (String × ℚ)) (total : ℚ) (cf : List ℚ)
    (hT0 : 0 ≤ total)
    (hC0 : 0 ≤ (if cf.length = 0 then (0 : ℚ) else cf.sum / cf.length))
    (hC1 : (if cf.length = 0 then (0 : ℚ) else cf.sum / cf.length) ≤ 1) :
    finishScore factors total cf
      = .ok ⟨round3 (min total 1),
             round3 (if cf.length = 0 then (0 : ℚ) else cf.sum / cf.length),
             pickLevel total levelThresholds, factors⟩ := by
  unfold finishScore
  exact mkThreatScore_num _ _ _ _ (le_min hT0 (by norm_num)) (min_le_right _ _) hC0 hC1

/-- Helper: rounding zero. -/
theorem round3_zero : round3 0 = 0 := by
  norm_num [round3]

/-- Helper: a score strictly above 0.35 still rounds to at least 0.35. -/
theorem round3_ge (x : ℚ) (hx : 7/20 < x) : 7/20 ≤ round3 x := by
  unfold round3
  have h1 : (350 : Int) ≤ ⌊x * 1000 + 1/2⌋ := by
    rw [Int.le_floor]
    push_cast
    linarith
  have h2 : (350 : ℚ) ≤ (⌊x * 1000 + 1/2⌋ : ℚ) := by exact_mod_cast h1
  linarith

/-- C2 amended: with VirusTotal as the only provider response, a payload
with 0 malicious and 0 suspicious detections scores strictly below the low
threshold 0.2; a payload whose malicious count exceeds half the engines
scores at least 0.35 (half of the 0.7 VirusTotal weight, after rounding) -
not necessarily above the high threshold 0.6. -/
theorem C2_fusion_bounds :
    (∀ h u : Nat,
      ∃ ts, calculateThreatScore [("virustotal", mkVTPayload 0 0 h u)] = .ok ts
        ∧ ts.overall_score < 1/5)
    ∧ (∀ m s h u : Nat, m + s + h + u < 2 * m →
      ∃ ts, calculateThreatScore [("virustotal", mkVTPayload m s h u)] = .ok ts
        ∧ 7/20 ≤ ts.overall_score) := by
  constructor
  · intro h u
    have h0 : score_virustotal (mkVTPayload 0 0 h u)
        = .ok (0, if h + u = 0 then 0 else min (((h : ℚ) + u) / 70) 1) := by
      rw [score_virustotal_mk]
      by_cases hz : h + u = 0
      · simp [hz]
      · have hz' : ¬(0 + 0 + h + u = 0) := by omega
        simp only [hz', hz, if_false]
        norm_num
    have hvc0 : 0 ≤ (if h + u = 0 then (0:ℚ) else min (((h : ℚ) + u) / 70) 1) := by
      by_cases hz : h + u = 0
      · simp [hz]
      · simp only [hz, if_false]
        exact le_min (by positivity) (by norm_num)
    have hvc1 : (if h + u = 0 then (0:ℚ) else min (((h : ℚ) + u) / 70) 1) ≤ 1 := by
      by_cases hz : h + u = 0
      · simp [hz]
      · simp only [hz, if_false]
        exact min_le_right _ _
    rw [calc_single_vt _ _ _ h0]
    rw [finishScore_num _ _ _ (by norm_num) (by simpa using hvc0) (by simpa using hvc1)]
    refine ⟨_, rfl, ?_⟩
    show round3 (min ((0:ℚ) * (7/10)) 1) < 1/5
    norm_num [round3]
  · intro m s h u hm
    have hz : ¬(m + s + h + u = 0) := by omega
    have hX : (0 : ℚ) < (m : ℚ) + s + h + u := by
      have hm0 : (1 : ℚ) ≤ (m : ℚ) := by exact_mod_cast Nat.one_le_iff_ne_zero.mpr (by omega)
      positivity
    have h0 : score_virustotal (mkVTPayload m s h u)
        = .ok (((m : ℚ) + (s : ℚ) / 2) / ((m : ℚ) + s + h + u),
               min (((m : ℚ) + s + h + u) / 70) 1) := by
      rw [score_virustotal_mk]
      simp [hz]
    have hvs : (1 : ℚ) / 2 < ((m : ℚ) + (s : ℚ) / 2) / ((m : ℚ) + s + h + u) := by
      rw [lt_div_iff₀ hX]
      have hcast : ((m : ℚ) + s + h + u) < 2 * m := by
        exact_mod_cast hm
      nlinarith [hcast]
    have hvs0 : (0 : ℚ) ≤ ((m : ℚ) + (s : ℚ) / 2) / ((m : ℚ) + s + h + u) := by positivity
    have hvc0 : (0 : ℚ) ≤ min (((m : ℚ) + s + h + u) / 70) 1 :=
      le_min (by positivity) (by norm_num)
    have hvc1 : min (((m : ℚ) + s + h + u) / 70) 1 ≤ 1 := min_le_right _ _
    rw [calc_single_vt _ _ _ h0]
    rw [finishScore_num _ _ _ (by positivity) (by simpa using hvc0) (by simpa using hvc1)]
    refine ⟨_, rfl, ?_⟩
    show 7/20 ≤ round3 (min ((((m : ℚ) + (s : ℚ) / 2) / ((m : ℚ) + s + h + u)) * (7/10)) 1)
    apply round3_ge
    apply lt_min
    · nlinarith [hvs]
    · norm_num

/-- C2 counterexample: 2 malicious engines out of 3 total (malicious
exceeds half the engines), VirusTotal the only source: the overall score is
round3(0.7 * 2/3) = 0.467, which is not strictly above the high threshold
0.6 - refuting the claim. -/
theorem C2_high_threshold_cex :
    2 * 2 > 2 + 0 + 1 + 0
    ∧ calculateThreatScore [("virustotal", mkVTPayload 2 0 1 0)]
        = .ok ⟨467/1000, 43/1000, .medium, [("virustotal", 2/3)]⟩
    ∧ ¬((3 : ℚ)/5 < 467/1000) := by
  refine ⟨by decide, ?_, by norm_num⟩
  have h0 : score_virustotal (mkVTPayload 2 0 1 0) = .ok (2/3, min ((3:ℚ)/70) 1) := by
    rw [score_virustotal_mk]
    norm_num
  have hcval : (if ([min ((3:ℚ)/70) 1]).length = 0 then (0:ℚ)
      else ([min ((3:ℚ)/70) 1]).sum / ([min ((3:ℚ)/70) 1]).length) = 3/70 := by
    have hmin : min ((3:ℚ)/70) 1 = 3/70 := min_eq_left (by norm_num)
    simp [hmin]
  have hC0 : (0:ℚ) ≤ (if ([min ((3:ℚ)/70) 1]).length = 0 then (0:ℚ)
      else ([min ((3:ℚ)/70) 1]).sum / ([min ((3:ℚ)/70) 1]).length) := by
    rw [hcval]; norm_num
  have hC1 : (if ([min ((3:ℚ)/70) 1]).length = 0 then (0:ℚ)
      else ([min ((3:ℚ)/70) 1]).sum / ([min ((3:ℚ)/70) 1]).length) ≤ 1 := by
    rw [hcval]; norm_num
  rw [calc_single_vt _ _ _ h0, finishScore_num _ _ _ (by norm_num) hC0 hC1]
  rw [Except.ok.injEq]
  simp only [ThreatScore.mk.injEq]
  refine ⟨?_, ?_, ?_, trivial⟩
  · rw [min_eq_left (by norm_num : (2:ℚ)/3 * (7/10) ≤ 1)]
    norm_num [round3]
  · rw [hcval]
    norm_num [round3]
  · norm_num [pickLevel, levelThresholds]

/-- C2 witness: both amended bounds at concrete payloads. -/
theorem C2_fusion_bounds_witness :
    (∃ ts, calculateThreatScore [("virustotal", mkVTPayload 0 0 5 0)] = .ok ts
      ∧ ts.overall_score < 1/5)
    ∧ (∃ ts, calculateThreatScore [("virustotal", mkVTPayload 3 0 0 0)] = .ok ts
      ∧ 7/20 ≤ ts.overall_score) :=
  ⟨C2_fusion_bounds.1 5 0, C2_fusion_bounds.2 3 0 0 0 (by decide)⟩

/-- C6 counterexample: a VirusTotal payload whose `data` field is a
non-dict makes the adapter raise `AttributeError` (uncaught by
`except (KeyError, TypeError)`), and fusion aborts with that exception even
though a healthy AbuseIPDB response is present - no `ThreatScore` is
produced. -/
theorem C6_fusion_raises_cex :
    score_virustotal (.dict [("data", .int 5)]) = .error .attributeError
    ∧ calculateThreatScore
        [("virustotal", .dict [("data", .int 5)]), ("abuseipdb", mkAbusePayload 50)]
        = .error .attributeError :=
  ⟨rfl, rfl⟩

/-- Helper: scoring a well-formed AbuseIPDB response. -/
theorem score_abuseipdb_mk (cs : Int) :
    score_abuseipdb (mkAbusePayload cs)
      = .ok ((cs : ℚ)/100, if 0 < cs then 4/5 else 3/10) := by
  have hbody : score_abuseipdb_body (mkAbusePayload cs) =
      (do
        let score ← pyDivVal (.int cs) (.num 100)
        let pos ← pyGtZero (.int cs)
        pure (score, if pos then (4 : ℚ)/5 else 3/10)) := rfl
  unfold score_abuseipdb
  rw [hbody]
  have h100 : ¬(100 : ℚ) = 0 := by norm_num
  simp [pyDivVal, pyGtZero, h100]
  rfl

/-- C6 amended: the adapters never surface `TypeError`/`KeyError` (those
are caught and become `(0, 0)`), and missing fields never raise: the
VirusTotal adapter returns `(0, 0)` on missing or ill-typed stats, while
the AbuseIPDB adapter returns `(0, 0.3)` on missing data - 0.3 being its
fixed floor confidence, not 0.0; but a non-dict value where an object is
expected raises `AttributeError`, which neither the adapter nor fusion
catches. -/
theorem C6_adapter_behavior :
    (∀ v : PyVal,
      score_virustotal v ≠ .error .typeError
      ∧ score_virustotal v ≠ .error .keyError
      ∧ score_abuseipdb v ≠ .error .typeError
      ∧ score_abuseipdb v ≠ .error .keyError)
    ∧ score_virustotal (.dict []) = .ok (0, 0)
    ∧ score_abuseipdb (.dict []) = .ok (0, 3/10)
    ∧ score_virustotal (.dict [("data", .dict [("attributes", .dict
        [("last_analysis_stats", .dict [("malicious", .str "x")])])])]) = .ok (0, 0) := by
  refine ⟨?_, rfl, ?_, rfl⟩
  · intro v
    refine ⟨?_, ?_, ?_, ?_⟩
    · cases hb : score_virustotal_body v with
      | ok val => simp [score_virustotal, hb]
      | error e => cases e <;> simp [score_virustotal, hb]
    · cases hb : score_virustotal_body v with
      | ok val => simp [score_virustotal, hb]
      | error e => cases e <;> simp [score_virustotal, hb]
    · cases hb : score_abuseipdb_body v with
      | ok val => simp [score_abuseipdb, hb]
      | error e => cases e <;> simp [score_abuseipdb, hb]
    · cases hb : score_abuseipdb_body v with
      | ok val => simp [score_abuseipdb, hb]
      | error e => cases e <;> simp [score_abuseipdb, hb]
  · have he : score_abuseipdb (.dict []) = score_abuseipdb (mkAbusePayload 0) := rfl
    rw [he, score_abuseipdb_mk 0]
    norm_num

/-- Helper: a successfully constructed `ThreatScore` carries the rounded
confidence it was given. -/
theorem mkThreatScore_conf (S C : ℚ) (lvl : ThreatLevel) (f : List (String × PyVal))
    (ts : ThreatScore) (h : mkThreatScore S C lvl f = .ok ts) :
    ts.confidence = round3 C := by
  unfold mkThreatScore at h
  by_cases h1 : 0 ≤ S ∧ S ≤ 1
  · by_cases h2 : 0 ≤ C ∧ C ≤ 1
    · rw [if_neg (not_not_intro h1), if_neg (not_not_intro h2)] at h
      cases hm : f.mapM (fun kv => do pure (kv.1, ← coerceFloat kv.2)) with
      | ok fs =>
        rw [hm] at h
        have h' : Except.ok (⟨round3 S, round3 C, lvl, fs⟩ : ThreatScore)
            = Except.ok ts := h
        injection h' with h2
        rw [← h2]
      | error e =>
        rw [hm] at h
        exact Except.noConfusion h
    · rw [if_neg (not_not_intro h1), if_pos h2] at h
      exact Except.noConfusion h
  · rw [if_pos h1] at h
    exact Except.noConfusion h

/-- Helper: the confidence a successful fusion step reports. -/
theorem finishScore_conf (factors : List (String × ℚ)) (total : ℚ) (cf : List ℚ)
    (ts : ThreatScore) (h : finishScore factors total cf = .ok ts) :
    ts.confidence = round3 (if cf.length = 0 then (0 : ℚ) else cf.sum / cf.length) := by
  unfold finishScore at h
  exact mkThreatScore_conf _ _ _ _ _ h

/-- C7 amended: the fused confidence is the rounded arithmetic mean over
the providers present in the response map - a provider with confidence 0
(missing data) is still counted in the denominator - and it is 0 when no
provider is present. -/
theorem C7_confidence_mean :
    (∀ (vt ab : PyVal) (vs vc as_ ac : ℚ) (ts : ThreatScore),
      score_virustotal vt = .ok (vs, vc) →
      score_abuseipdb ab = .ok (as_, ac) →
      calculateThreatScore [("virustotal", vt), ("abuseipdb", ab)] = .ok ts →
      ts.confidence = round3 ((vc + ac) / 2))
    ∧ (∀ (vt : PyVal) (vs vc : ℚ) (ts : ThreatScore),
      score_virustotal vt = .ok (vs, vc) →
      calculateThreatScore [("virustotal", vt)] = .ok ts →
      ts.confidence = round3 vc)
    ∧ (∃ ts, calculateThreatScore [] = .ok ts ∧ ts.confidence = 0) := by
  refine ⟨?_, ?_, ?_⟩
  · intro vt ab vs vc as_ ac ts h1 h2 h3
    rw [calc_vt_abuse _ _ _ _ _ _ h1 h2] at h3
    rw [finishScore_conf _ _ _ _ h3]
    congr 1
    norm_num
  · intro vt vs vc ts h1 h3
    rw [calc_single_vt _ _ _ h1] at h3
    rw [finishScore_conf _ _ _ _ h3]
    congr 1
    norm_num
  · refine ⟨_, finishScore_num [] 0 [] (le_refl 0) (by norm_num) (by norm_num), ?_⟩
    show round3 (if ([] : List ℚ).length = 0 then (0:ℚ) else ([] : List ℚ).sum / ([] : List ℚ).length) = 0
    simp [round3_zero]

/-- C7 counterexample: VirusTotal present but with no usable data
(confidence 0) next to an AbuseIPDB response with confidence 0.8: the code
reports confidence (0 + 0.8)/2 = 0.4, not the 0.8 mean over contributing
providers that the claim requires. -/
theorem C7_confidence_mean_cex :
    calculateThreatScore [("virustotal", .dict []), ("abuseipdb", mkAbusePayload 50)]
      = .ok ⟨3/20, 2/5, .benign, [("virustotal", 0), ("abuseipdb", 1/2)]⟩
    ∧ ((2:ℚ)/5 ≠ 4/5) := by
  constructor
  · have hab : score_abuseipdb (mkAbusePayload 50) = .ok (1/2, 4/5) := by
      rw [score_abuseipdb_mk]
      norm_num
    rw [calc_vt_abuse _ _ _ _ _ _ (rfl : score_virustotal (.dict []) = .ok (0, 0)) hab]
    have hcval : (if ([0, (4:ℚ)/5] : List ℚ).length = 0 then (0:ℚ)
        else ([0, (4:ℚ)/5] : List ℚ).sum / ([0, (4:ℚ)/5] : List ℚ).length) = 2/5 := by
      norm_num
    have hC0 : (0:ℚ) ≤ (if ([0, (4:ℚ)/5] : List ℚ).length = 0 then (0:ℚ)
        else ([0, (4:ℚ)/5] : List ℚ).sum / ([0, (4:ℚ)/5] : List ℚ).length) := by
      rw [hcval]; norm_num
    have hC1 : (if ([0, (4:ℚ)/5] : List ℚ).length = 0 then (0:ℚ)
        else ([0, (4:ℚ)/5] : List ℚ).sum / ([0, (4:ℚ)/5] : List ℚ).length) ≤ 1 := by
      rw [hcval]; norm_num
    rw [finishScore_num _ _ _ (by norm_num) hC0 hC1]
    rw [Except.ok.injEq]
    simp only [ThreatScore.mk.injEq]
    refine ⟨?_, ?_, ?_, trivial⟩
    · rw [min_eq_left (by norm_num : (0:ℚ) * (7/10) + 1/2 * (3/10) ≤ 1)]
      norm_num [round3]
    · rw [hcval]
      norm_num [round3]
    · norm_num [pickLevel, levelThresholds]
  · norm_num

/-- C7 witness: concrete instantiation of the amended confidence rule. -/
theorem C7_confidence_mean_witness :
    (⟨0, 0, .benign, [("virustotal", 0)]⟩ : ThreatScore).confidence = round3 0 := by
  have hcalc : calculateThreatScore [("virustotal", PyVal.dict [])]
      = .ok ⟨0, 0, .benign, [("virustotal", 0)]⟩ := by
    rw [calc_single_vt _ _ _ (rfl : score_virustotal (PyVal.dict []) = .ok (0, 0))]
    rw [finishScore_num _ _ _ (by norm_num) (by simp) (by simp)]
    rw [Except.ok.injEq]
    simp only [ThreatScore.mk.injEq]
    refine ⟨?_, ?_, ?_, trivial⟩
    · norm_num [round3]
    · simp [round3_zero]
    · norm_num [pickLevel, levelThresholds]
  exact C7_confidence_mean.2.1 (PyVal.dict []) 0 0 _ rfl hcalc

/-! Concrete behaviours from the spec's test table, checked against the embedding. -/

example : determine_indicator_type "192.168.1.1" = some .ip := by decide

example : determine_indicator_type "8.8.8.8.8" = none := by decide

example : determine_indicator_type "256.1.1.1" = none := by decide

example : determine_indicator_type "example.com" = some .domain := by decide

example : determine_indicator_type "https://example.com" = some .url := by decide

example : determine_indicator_type "a@b.com" = some .email := by decide

example : determine_indicator_type "" = none := by decide

example : determine_indicator_type "5d41402abc4b2a76b9719d911017c592" = some .hash := by decide

example : determine_indicator_type (String.mk (List.replicate 33 'a')) = some .hash := by decide

example :
    requestLoop [⟨500, 60, none⟩, ⟨500, 60, none⟩, ⟨500, 60, none⟩] 0 =
      (.error .apiError, 3) := by rfl

example : requestLoop [⟨401, 60, none⟩] 0 = (.error .authenticationError, 1) := by rfl
